import Mathlib

/-
Verification development for the attention-aware review engine
(frontend/src/hooks/useAttention.js and the ReviewBriefing session
state machine).

Modelling conventions:
* JS numbers are modelled as rationals (ℚ); timestamps as integers (ℤ, ms).
* The mutable per-item metrics map `itemMetricsRef.current` is modelled as a
  total function `ℕ → Option ItemTrackingRecord` (absent key = none).
* React state updates inside one event handler are modelled as one atomic
  state transition; commits are assumed to settle between user interactions,
  so `itemResultsRef.current` read at a click equals the `itemResults` state
  at that click.
-/

namespace Vigil

/-- A live metrics snapshot (shape of `liveMetrics` in useAttention.js);
readings pushed by `recordReading` are copies of this whole snapshot. -/
structure LiveMetrics where
  engagement : ℚ
  focus : ℚ
  stress : ℚ
  heartRate : ℚ
  faceDetected : Bool
deriving DecidableEq

/-- The per-item record stored in `itemMetricsRef.current[itemIndex]`. -/
structure ItemTrackingRecord where
  readings : List LiveMetrics
  startTime : ℤ
deriving DecidableEq

/-- The record returned by `stopTrackingItem`. -/
structure ItemResult where
  itemIndex : ℕ
  avgEngagement : ℚ
  avgFocus : ℚ
  timeSpentMs : ℤ
deriving DecidableEq

/-- The whole `itemMetricsRef.current` object. -/
def TrackerMap : Type := ℕ → Option ItemTrackingRecord

/-- `startTrackingItem(itemIndex)`: unconditionally overwrites the entry for
`itemIndex` with a fresh record `{ readings: [], startTime: Date.now() }`. -/
def startTrackingItem (m : TrackerMap) (itemIndex : ℕ) (now : ℤ) : TrackerMap :=
  fun i => if i = itemIndex then some { readings := [], startTime := now } else m i

/-- `stopTrackingItem(itemIndex)`: returns null when no record exists; with an
empty readings list returns the live snapshot; otherwise returns the
arithmetic means of the collected readings.  The source performs no write to
`itemMetricsRef.current`, so the map passes through unchanged (second
component). -/
def stopTrackingItem (m : TrackerMap) (itemIndex : ℕ) (now : ℤ) (live : LiveMetrics) :
    Option ItemResult × TrackerMap :=
  match m itemIndex with
  | none => (none, m)
  | some data =>
    let elapsed := now - data.startTime
    if data.readings.length = 0 then
      (some { itemIndex := itemIndex, avgEngagement := live.engagement,
              avgFocus := live.focus, timeSpentMs := elapsed }, m)
    else
      (some { itemIndex := itemIndex,
              avgEngagement := (data.readings.map (fun r => r.engagement)).sum / data.readings.length,
              avgFocus := (data.readings.map (fun r => r.focus)).sum / data.readings.length,
              timeSpentMs := elapsed }, m)

/-- `recordReading(itemIndex)`: appends a copy of the current live snapshot to
the open record for `itemIndex`, if one exists. -/
def recordReading (m : TrackerMap) (itemIndex : ℕ) (live : LiveMetrics) : TrackerMap :=
  match m itemIndex with
  | none => m
  | some data =>
    fun i => if i = itemIndex then some { data with readings := data.readings ++ [live] }
             else m i

/- ------------------------------------------------------------------
Engagement estimator (computeEngagement in useAttention.js)
------------------------------------------------------------------ -/

/-- One MediaPipe landmark (only x and y are used by the estimator). -/
structure Landmark where
  x : ℚ
  y : ℚ

/-- One entry of `faceBlendshapes[0].categories`. -/
structure BlendshapeCategory where
  categoryName : String
  score : ℚ

/-- The slice of a FaceLandmarker result read by `computeEngagement`.
`faceLandmarks = none` models an absent (`undefined`) landmarks field; a
landmark array is modelled as a total function from index (the source only
reads indices 1, 10 and 152).  An absent/empty blendshape field collapses to
the empty list (both make `getBlendshapeValue` return 0). -/
structure DetectionResult where
  faceLandmarks : Option (List (ℕ → Landmark))
  faceBlendshapes : List (List BlendshapeCategory)

/-- The `{engagement, focus, faceDetected}` output shape. -/
structure EngagementOutput where
  engagement : ℚ
  focus : ℚ
  faceDetected : Bool
deriving DecidableEq

def eyeBlinkLeft : String := "eyeBlinkLeft"
def eyeBlinkRight : String := "eyeBlinkRight"
def eyeLookDownLeft : String := "eyeLookDownLeft"
def eyeLookDownRight : String := "eyeLookDownRight"
def eyeLookOutLeft : String := "eyeLookOutLeft"
def eyeLookOutRight : String := "eyeLookOutRight"

/-- `getBlendshapeValue(blendshapes, name)`: 0 when the field is missing/empty
or the named category is absent, otherwise that category's score. -/
def getBlendshapeValue (blendshapes : List (List BlendshapeCategory)) (name : String) : ℚ :=
  match blendshapes with
  | [] => 0
  | cats :: _ =>
    match cats.find? (fun c => c.categoryName == name) with
    | none => 0
    | some shape => shape.score

/-- `Math.max(0, Math.min(1, x))`. -/
def clamp01 (x : ℚ) : ℚ := max 0 (min 1 x)

/-- `computeEngagement(result)`, translated line by line from
useAttention.js (lines 24-66). -/
def computeEngagement (result : DetectionResult) : EngagementOutput :=
  match result.faceLandmarks with
  | none => { engagement := 0, focus := 0, faceDetected := false }
  | some [] => { engagement := 0, focus := 0, faceDetected := false }
  | some (landmarks :: _) =>
    let blendshapes := result.faceBlendshapes
    let blinkL := getBlendshapeValue blendshapes eyeBlinkLeft
    let blinkR := getBlendshapeValue blendshapes eyeBlinkRight
    let eyeOpenness := 1 - (blinkL + blinkR) / 2
    let lookDownL := getBlendshapeValue blendshapes eyeLookDownLeft
    let lookDownR := getBlendshapeValue blendshapes eyeLookDownRight
    let lookOutL := getBlendshapeValue blendshapes eyeLookOutLeft
    let lookOutR := getBlendshapeValue blendshapes eyeLookOutRight
    let lookAway := max lookDownL (max lookDownR (max lookOutL lookOutR))
    let gazeScore := max 0 (1 - lookAway * 1.5)
    let noseTip := landmarks 1
    let chin := landmarks 152
    let forehead := landmarks 10
    let faceCenterX := noseTip.x
    let xDeviation := |faceCenterX - 0.5|
    let headFacingScore := max 0 (1 - xDeviation * 3)
    let faceHeight := |forehead.y - chin.y|
    let headTiltScore := min 1 (faceHeight / 0.25)
    let engagement := clamp01 (eyeOpenness * 0.45 + headFacingScore * 0.35 + headTiltScore * 0.2)
    let focus := clamp01 (gazeScore * 0.5 + eyeOpenness * 0.3 + headFacingScore * 0.2)
    { engagement := engagement, focus := focus, faceDetected := true }

/- ------------------------------------------------------------------
Review session state machine (ReviewBriefing component)
------------------------------------------------------------------ -/

/-- The review phases: setup, reviewing, results. -/
inductive Phase where
  | setup
  | reviewing
  | results
deriving DecidableEq

/-- The component state driving the review session: `currentIndex`, `phase`,
`itemResults`, `missedItems` (the flagged set, stored as result records),
`reviewQueue` (null = all items), `isReReview`, plus the tracker map held by
the useAttention hook. -/
structure SessionState where
  currentIndex : ℕ
  phase : Phase
  itemResults : List ItemResult
  missedItems : List ItemResult
  reviewQueue : Option (List ℕ)
  isReReview : Bool
  tracker : TrackerMap

/-- `activeQueue = reviewQueue || items.map((_, i) => i)`. -/
def activeQueue (numItems : ℕ) (s : SessionState) : List ℕ :=
  s.reviewQueue.getD (List.range numItems)

/-- The flag predicate used by `finishReview`:
`r.avgEngagement < 0.4 || r.avgFocus < 0.35`. -/
def failsThreshold (r : ItemResult) : Bool :=
  decide (r.avgEngagement < 0.4) || decide (r.avgFocus < 0.35)

/-- One step of the re-review merge loop: `findIndex` on the item index; if
found, replace the first matching entry in place, otherwise push. -/
def upsertResult : List ItemResult → ItemResult → List ItemResult
  | [], r => [r]
  | x :: xs, r => if x.itemIndex = r.itemIndex then r :: xs else x :: upsertResult xs r

/-- The whole merge loop of `finishReview` in the re-review branch. -/
def mergeResults (prev finalResults : List ItemResult) : List ItemResult :=
  finalResults.foldl upsertResult prev

/-- `finishReview(finalResults)`: in a re-review, merge `finalResults` into the
current `itemResults` and set `missedItems` to the failing entries of
`finalResults`; in a full pass, overwrite `itemResults` with `finalResults`
and set `missedItems` likewise.  Then clear the queue, drop the re-review
flag and enter the results phase.  (Session/camera shutdown and the
fire-and-forget POST are outside the model.) -/
def finishReview (s : SessionState) (finalResults : List ItemResult) : SessionState :=
  if s.isReReview then
    { s with
      itemResults := mergeResults s.itemResults finalResults,
      missedItems := finalResults.filter failsThreshold,
      reviewQueue := none, isReReview := false, phase := Phase.results }
  else
    { s with
      itemResults := finalResults,
      missedItems := finalResults.filter failsThreshold,
      reviewQueue := none, isReReview := false, phase := Phase.results }

/-- `advanceItem()`: stop tracking the active item and append its result to
`itemResults`; if not at the end of the queue, move on and (via the
`activeItemIndex` effect) start tracking the next item; at the end, call
`finishReview` with `itemResultsRef.current` plus the just-produced result —
which, commits having settled between clicks, equals the post-append
`itemResults`. -/
def advanceItem (numItems : ℕ) (now : ℤ) (live : LiveMetrics) (s : SessionState) : SessionState :=
  let q := activeQueue numItems s
  match q[s.currentIndex]? with
  | none => s
  | some idx =>
    let stopped := stopTrackingItem s.tracker idx now live
    let pushed := match stopped.1 with
      | some r => s.itemResults ++ [r]
      | none => s.itemResults
    if s.currentIndex + 1 < q.length then
      let s1 := { s with itemResults := pushed, currentIndex := s.currentIndex + 1,
                         tracker := stopped.2 }
      match q[s.currentIndex + 1]? with
      | some nextIdx => { s1 with tracker := startTrackingItem s1.tracker nextIdx now }
      | none => s1
    else
      finishReview { s with itemResults := pushed, tracker := stopped.2 } pushed

/-- `goBack()`: only when `currentIndex > 0`; calls `stopTrackingItem` on the
active item but DISCARDS the returned result (the source ignores the return
value and appends nothing to `itemResults`), decrements the index, and (via
the `activeItemIndex` effect) starts a fresh tracking window for the item now
at the position. -/
def goBack (numItems : ℕ) (now : ℤ) (live : LiveMetrics) (s : SessionState) : SessionState :=
  if s.currentIndex = 0 then s
  else
    let q := activeQueue numItems s
    let stopped := match q[s.currentIndex]? with
      | some idx => stopTrackingItem s.tracker idx now live
      | none => (none, s.tracker)
    let s1 := { s with currentIndex := s.currentIndex - 1, tracker := stopped.2 }
    match q[s.currentIndex - 1]? with
    | some idx2 => { s1 with tracker := startTrackingItem s1.tracker idx2 now }
    | none => s1

/-- The initial component state (fresh mount, or after `resetReview`). -/
def initialState : SessionState :=
  { currentIndex := 0, phase := Phase.setup, itemResults := [], missedItems := [],
    reviewQueue := none, isReReview := false, tracker := fun _ => none }

/-- `startReview()` plus the attach effect: enter the reviewing phase and start
tracking the first queue item. -/
def startReview (numItems : ℕ) (now : ℤ) (s : SessionState) : SessionState :=
  let s1 := { s with phase := Phase.reviewing }
  match (activeQueue numItems s1)[0]? with
  | some firstIdx => { s1 with tracker := startTrackingItem s1.tracker firstIdx now }
  | none => s1

/-- `startReReview()` plus the attach effect: queue the flagged item indices,
reset the position, mark the sub-review and start tracking its first item.
`itemResults` is NOT cleared. -/
def startReReview (now : ℤ) (s : SessionState) : SessionState :=
  let missedIndices := s.missedItems.map (fun m => m.itemIndex)
  let s1 := { s with currentIndex := 0, reviewQueue := some missedIndices,
                     isReReview := true, phase := Phase.reviewing }
  match missedIndices[0]? with
  | some firstIdx => { s1 with tracker := startTrackingItem s1.tracker firstIdx now }
  | none => s1

/-- `resetReview()`: back to setup with everything cleared. -/
def resetReview (s : SessionState) : SessionState :=
  { currentIndex := 0, phase := Phase.setup, itemResults := [], missedItems := [],
    reviewQueue := none, isReReview := false, tracker := s.tracker }

/- ------------------------------------------------------------------
Concrete scenarios used by the theorems below
------------------------------------------------------------------ -/

/-- A high-attention snapshot (0.9 / 0.9). -/
def liveHigh : LiveMetrics :=
  { engagement := 0.9, focus := 0.9, stress := 0, heartRate := 70, faceDetected := true }

/-- A low-attention snapshot (0.2 / 0.2) — fails both thresholds. -/
def liveLow : LiveMetrics :=
  { engagement := 0.2, focus := 0.2, stress := 0, heartRate := 70, faceDetected := true }

/-- A good snapshot (0.8 / 0.75) — passes both thresholds. -/
def liveGood : LiveMetrics :=
  { engagement := 0.8, focus := 0.75, stress := 0, heartRate := 70, faceDetected := true }

/-- A 2-item full pass: item 0 read at good attention, item 1 at low
attention.  Ends in the results phase with item 1 flagged. -/
def sFullDone : SessionState :=
  advanceItem 2 2000 liveLow (advanceItem 2 1000 liveGood (startReview 2 0 initialState))

/-- Re-review of the flagged item 1, read this time at high attention, then
finished. -/
def sSubStart : SessionState := startReReview 3000 sFullDone

def sSubDone : SessionState := advanceItem 2 4000 liveHigh sSubStart

/-- A 2-item full pass with back navigation: advance past item 0 at low
attention, go back, advance past it again at good attention, then finish. -/
def sBackTrace : SessionState :=
  advanceItem 2 4000 liveHigh
    (advanceItem 2 3000 liveGood
      (goBack 2 2500 liveGood
        (advanceItem 2 1000 liveLow (startReview 2 0 initialState))))

/-- Mid-pass state used for the back-transition claims: item 0 was advanced
past at low attention, item 1 is open and has collected one reading. -/
def sMid : SessionState := advanceItem 2 1000 liveLow (startReview 2 0 initialState)

def sMidSampled : SessionState :=
  { sMid with tracker := recordReading sMid.tracker 1 liveHigh }

def sBackStep : SessionState := goBack 2 2000 liveHigh sMidSampled

/- Item results produced along these traces (every stop here closes a
zero-reading window, so each result copies the live snapshot). -/

def rGood0 : ItemResult :=
  { itemIndex := 0, avgEngagement := 0.8, avgFocus := 0.75, timeSpentMs := 1000 }

def rLow1 : ItemResult :=
  { itemIndex := 1, avgEngagement := 0.2, avgFocus := 0.2, timeSpentMs := 1000 }

def rHigh1 : ItemResult :=
  { itemIndex := 1, avgEngagement := 0.9, avgFocus := 0.9, timeSpentMs := 1000 }

def rLow0 : ItemResult :=
  { itemIndex := 0, avgEngagement := 0.2, avgFocus := 0.2, timeSpentMs := 1000 }

def rGoodB0 : ItemResult :=
  { itemIndex := 0, avgEngagement := 0.8, avgFocus := 0.75, timeSpentMs := 500 }

def rHighB1 : ItemResult :=
  { itemIndex := 1, avgEngagement := 0.9, avgFocus := 0.9, timeSpentMs := 1000 }

/- Tracker maps reached along the traces. -/

def trInit : TrackerMap := fun _ => none

def trF0 : TrackerMap := startTrackingItem trInit 0 0

def trF1 : TrackerMap := startTrackingItem trF0 1 1000

def trS1 : TrackerMap := startTrackingItem trF1 1 3000

def trB0b : TrackerMap := startTrackingItem trF1 0 2500

def trB1b : TrackerMap := startTrackingItem trB0b 1 3000

/- Threshold evaluations of the concrete results (the rational comparisons
are the only parts of the traces the kernel cannot reduce on its own). -/

lemma failsThreshold_rGood0 : failsThreshold rGood0 = false := by
  simp only [failsThreshold, rGood0]
  norm_num

lemma failsThreshold_rLow1 : failsThreshold rLow1 = true := by
  simp only [failsThreshold, rLow1]
  norm_num

lemma failsThreshold_rHigh1 : failsThreshold rHigh1 = false := by
  simp only [failsThreshold, rHigh1]
  norm_num

lemma failsThreshold_rLow0 : failsThreshold rLow0 = true := by
  simp only [failsThreshold, rLow0]
  norm_num

lemma failsThreshold_rGoodB0 : failsThreshold rGoodB0 = false := by
  simp only [failsThreshold, rGoodB0]
  norm_num

lemma failsThreshold_rHighB1 : failsThreshold rHighB1 = false := by
  simp only [failsThreshold, rHighB1]
  norm_num

lemma filter_full_results : List.filter failsThreshold [rGood0, rLow1] = [rLow1] := by
  simp [List.filter_cons, failsThreshold_rGood0, failsThreshold_rLow1]

lemma filter_sub_results :
    List.filter failsThreshold [rGood0, rLow1, rHigh1] = [rLow1] := by
  simp [List.filter_cons, failsThreshold_rGood0, failsThreshold_rLow1, failsThreshold_rHigh1]

lemma filter_back_results :
    List.filter failsThreshold [rLow0, rGoodB0, rHighB1] = [rLow0] := by
  simp [List.filter_cons, failsThreshold_rLow0, failsThreshold_rGoodB0, failsThreshold_rHighB1]

/- Evaluated end states of the three traces. -/

lemma sFullDone_eq : sFullDone =
    { currentIndex := 1, phase := Phase.results, itemResults := [rGood0, rLow1],
      missedItems := [rLow1], reviewQueue := none, isReReview := false, tracker := trF1 } := by
  have h : sFullDone =
      { currentIndex := 1, phase := Phase.results, itemResults := [rGood0, rLow1],
        missedItems := List.filter failsThreshold [rGood0, rLow1],
        reviewQueue := none, isReReview := false, tracker := trF1 } := rfl
  rw [h, filter_full_results]

lemma sSubStart_eq : sSubStart =
    { currentIndex := 0, phase := Phase.reviewing, itemResults := [rGood0, rLow1],
      missedItems := [rLow1], reviewQueue := some [1], isReReview := true,
      tracker := trS1 } := by
  have h : sSubStart = startReReview 3000 sFullDone := rfl
  rw [h, sFullDone_eq]
  rfl

lemma sSubDone_eq : sSubDone =
    { currentIndex := 0, phase := Phase.results, itemResults := [rGood0, rHigh1, rHigh1],
      missedItems := [rLow1], reviewQueue := none, isReReview := false,
      tracker := trS1 } := by
  have h : sSubDone = advanceItem 2 4000 liveHigh sSubStart := rfl
  rw [h, sSubStart_eq]
  have h2 : advanceItem 2 4000 liveHigh
      { currentIndex := 0, phase := Phase.reviewing, itemResults := [rGood0, rLow1],
        missedItems := [rLow1], reviewQueue := some [1], isReReview := true,
        tracker := trS1 } =
      { currentIndex := 0, phase := Phase.results, itemResults := [rGood0, rHigh1, rHigh1],
        missedItems := List.filter failsThreshold [rGood0, rLow1, rHigh1],
        reviewQueue := none, isReReview := false, tracker := trS1 } := rfl
  rw [h2, filter_sub_results]

lemma sBackTrace_eq : sBackTrace =
    { currentIndex := 1, phase := Phase.results,
      itemResults := [rLow0, rGoodB0, rHighB1], missedItems := [rLow0],
      reviewQueue := none, isReReview := false, tracker := trB1b } := by
  have h : sBackTrace =
      { currentIndex := 1, phase := Phase.results,
        itemResults := [rLow0, rGoodB0, rHighB1],
        missedItems := List.filter failsThreshold [rLow0, rGoodB0, rHighB1],
        reviewQueue := none, isReReview := false, tracker := trB1b } := rfl
  rw [h, filter_back_results]

/-- `stopTrackingItem` performs no write to the tracker map: the map component
of its return value is always the input map. -/
lemma stopTrackingItem_snd (m : TrackerMap) (idx : ℕ) (now : ℤ) (live : LiveMetrics) :
    (stopTrackingItem m idx now live).2 = m := by
  unfold stopTrackingItem
  cases h : m idx with
  | none => rfl
  | some data =>
    by_cases hl : data.readings.length = 0 <;> simp [hl]

/- ------------------------------------------------------------------
Claims about the item tracker and the estimator
------------------------------------------------------------------ -/

/-- Claim C6: for an open tracking record with at least one collected reading,
`stopTrackingItem` returns exactly the arithmetic mean of the readings'
engagement values and of their focus values, with `timeSpentMs = now −
startTime`; with zero readings it instead returns the live snapshot's
engagement and focus at stop time. -/
theorem c6_stop_tracking_exact_means (m : TrackerMap) (idx : ℕ) (now : ℤ)
    (live : LiveMetrics) (data : ItemTrackingRecord) (h : m idx = some data) :
    (data.readings.length ≠ 0 →
      (stopTrackingItem m idx now live).1 = some
        { itemIndex := idx,
          avgEngagement := (data.readings.map (fun r => r.engagement)).sum / data.readings.length,
          avgFocus := (data.readings.map (fun r => r.focus)).sum / data.readings.length,
          timeSpentMs := now - data.startTime }) ∧
    (data.readings.length = 0 →
      (stopTrackingItem m idx now live).1 = some
        { itemIndex := idx, avgEngagement := live.engagement, avgFocus := live.focus,
          timeSpentMs := now - data.startTime }) := by
  unfold stopTrackingItem
  rw [h]
  constructor
  · intro hne
    simp [hne]
  · intro he
    simp [he]

def c6SampleMap : TrackerMap :=
  fun i => if i = 0 then some { readings := [liveLow, liveHigh], startTime := 100 } else none

/-- Witness for C6: a record with the two readings 0.2/0.2 and 0.9/0.9 opened
at t=100 and stopped at t=500 yields exactly the means 0.55/0.55 and 400 ms. -/
theorem c6_stop_tracking_exact_means_witness :
    (stopTrackingItem c6SampleMap 0 500 liveGood).1 = some
      { itemIndex := 0, avgEngagement := 0.55, avgFocus := 0.55, timeSpentMs := 400 } := by
  have h := (c6_stop_tracking_exact_means c6SampleMap 0 500 liveGood
      { readings := [liveLow, liveHigh], startTime := 100 } rfl).1 (by decide)
  rw [h]
  norm_num [liveLow, liveHigh]

/-- Claim C7: `stopTrackingItem` on an index with no open record is a no-op:
it returns no result, raises no error (it is a total function), and leaves
the tracker map unchanged. -/
theorem c7_stop_tracking_missing_noop (m : TrackerMap) (idx : ℕ) (now : ℤ)
    (live : LiveMetrics) (h : m idx = none) :
    stopTrackingItem m idx now live = (none, m) := by
  unfold stopTrackingItem
  rw [h]

/-- Witness for C7 on the empty tracker map. -/
theorem c7_stop_tracking_missing_noop_witness :
    stopTrackingItem (fun _ => none) 3 1234 liveGood = (none, fun _ => none) :=
  c7_stop_tracking_missing_noop (fun _ => none) 3 1234 liveGood rfl

/-- Claim C8: with a detected face, the estimator returns exactly
`engagement = clamp01(eyeOpenness*0.45 + headFacing*0.35 + headTilt*0.2)` and
`focus = clamp01(gazeScore*0.5 + eyeOpenness*0.3 + headFacing*0.2)` with
`faceDetected = true`, where `eyeOpenness = 1 - (blinkLeft + blinkRight)/2`,
`gazeScore = max 0 (1 - max(lookDownLeft, lookDownRight, lookOutLeft,
lookOutRight) * 1.5)`, `headFacing = max 0 (1 - |noseTipX - 0.5| * 3)` and
`headTilt = min 1 (|foreheadY - chinY| / 0.25)` (nose tip, forehead and chin
being landmarks 1, 10 and 152). -/
theorem c8_estimator_formulas (landmarks : ℕ → Landmark)
    (rest : List (ℕ → Landmark)) (bs : List (List BlendshapeCategory)) :
    computeEngagement { faceLandmarks := some (landmarks :: rest), faceBlendshapes := bs } =
      (let eyeOpenness := 1 - (getBlendshapeValue bs eyeBlinkLeft + getBlendshapeValue bs eyeBlinkRight) / 2
       let gazeScore := max 0 (1 - max (getBlendshapeValue bs eyeLookDownLeft)
          (max (getBlendshapeValue bs eyeLookDownRight)
            (max (getBlendshapeValue bs eyeLookOutLeft) (getBlendshapeValue bs eyeLookOutRight))) * 1.5)
       let headFacing := max 0 (1 - |(landmarks 1).x - 0.5| * 3)
       let headTilt := min 1 (|(landmarks 10).y - (landmarks 152).y| / 0.25)
       { engagement := clamp01 (eyeOpenness * 0.45 + headFacing * 0.35 + headTilt * 0.2),
         focus := clamp01 (gazeScore * 0.5 + eyeOpenness * 0.3 + headFacing * 0.2),
         faceDetected := true }) := rfl

/-- Claim C9: with no face or no landmarks, the estimator returns exactly
`{engagement := 0, focus := 0, faceDetected := false}` (and, being a total
function, never errors). -/
theorem c9_no_face_zero_output (r : DetectionResult)
    (h : r.faceLandmarks = none ∨ r.faceLandmarks = some []) :
    computeEngagement r = { engagement := 0, focus := 0, faceDetected := false } := by
  unfold computeEngagement
  rcases h with h | h <;> rw [h]

def noFaceInput : DetectionResult := { faceLandmarks := none, faceBlendshapes := [] }

/-- Witness for C9 at an input with no landmarks at all. -/
theorem c9_no_face_zero_output_witness :
    computeEngagement noFaceInput = { engagement := 0, focus := 0, faceDetected := false } :=
  c9_no_face_zero_output noFaceInput (Or.inl rfl)

/-- Claim C10: `startTrackingItem` unconditionally replaces whatever record the
map holds for the index with a fresh one (empty readings, startTime = now),
and leaves every other index alone — so re-visiting an item restarts its
measurement window and discards the previous window's readings. -/
theorem c10_start_tracking_replaces (m : TrackerMap) (idx : ℕ) (now : ℤ) :
    startTrackingItem m idx now idx = some { readings := [], startTime := now } ∧
    ∀ j, j ≠ idx → startTrackingItem m idx now j = m j := by
  constructor
  · unfold startTrackingItem
    simp
  · intro j hj
    unfold startTrackingItem
    simp [hj]

def c10SampleMap : TrackerMap :=
  fun i => if i = 0 then some { readings := [liveLow], startTime := 5 } else none

/-- Witness for C10: a map already holding a non-empty record at index 0 gets
a fresh empty record there, and index 1 is untouched. -/
theorem c10_start_tracking_replaces_witness :
    startTrackingItem c10SampleMap 0 99 0 = some { readings := [], startTime := 99 } ∧
    startTrackingItem c10SampleMap 0 99 1 = c10SampleMap 1 :=
  ⟨(c10_start_tracking_replaces c10SampleMap 0 99).1,
   (c10_start_tracking_replaces c10SampleMap 0 99).2 1 (by decide)⟩

/- ------------------------------------------------------------------
Claims about the review session state machine
------------------------------------------------------------------ -/

/-- Claim C1 is violated by the code (code bug): in the concrete run
`sSubDone`, the full pass flags item 1 (averages 0.2/0.2) and the sub
re-review of queue [1] re-reads it at 0.9/0.9 — passing both thresholds —
yet after the sub-pass completes the flagged set still contains item 1 (with
its stale full-pass entry), because `finishReview` filters
`itemResultsRef.current ++ [result]`, which still holds every prior pass
entry.  The claim says a sub-pass item whose new averages pass is no longer
flagged; here the flagged set is exactly the stale `[rLow1]` while the
results entry for item 1 is the new, passing `rHigh1`. -/
theorem c1_rereview_keeps_stale_flag :
    sSubDone.phase = Phase.results ∧
    sSubDone.missedItems = [rLow1] ∧
    sSubDone.itemResults.find? (fun r => r.itemIndex == 1) = some rHigh1 ∧
    failsThreshold rHigh1 = false := by
  rw [sSubDone_eq]
  exact ⟨rfl, rfl, rfl, failsThreshold_rHigh1⟩

/-- Claim C2 is violated by the code (code bug): in the run `sSubDone`, after
the sub re-review of queue [1] completes, the entry for the out-of-queue
item 0 is indeed unchanged and the first entry for item 1 is replaced by the
sub-pass result, but item 1 ends up with TWO entries — `advanceItem` appended
the sub-pass result and the merge in `finishReview` only replaced the first
occurrence — contradicting "no index gains more than one entry". -/
theorem c2_rereview_duplicates_entries :
    sSubDone.itemResults = [rGood0, rHigh1, rHigh1] ∧
    (sSubDone.itemResults.filter (fun r => r.itemIndex == 1)).length = 2 ∧
    sSubDone.itemResults.length = 3 := by
  rw [sSubDone_eq]
  exact ⟨rfl, rfl, rfl⟩

/-- Claim C3 is violated by the code (code bug): the full pass over N = 2
items in `sBackTrace` (advance, back, advance, advance) ends in RESULTS with
THREE results entries, two of them for item 0 — `advanceItem` appends a
result on every advance and `goBack` removes nothing — contradicting
"exactly N entries, exactly one per original item index". -/
theorem c3_back_navigation_duplicates :
    sBackTrace.phase = Phase.results ∧
    sBackTrace.itemResults.length = 3 ∧
    (sBackTrace.itemResults.filter (fun r => r.itemIndex == 0)).length = 2 := by
  rw [sBackTrace_eq]
  exact ⟨rfl, rfl, rfl⟩

/-- Claim C4 is violated by the code (code bug): when the sub re-review pass
of `sSubDone` completes and the session transitions to RESULTS, the flagged
set has the member `rLow1` (item 1), yet the results entry for item 1 — the
first match, exactly what the results screen's `find` renders — is `rHigh1`,
which fails neither threshold.  So a flagged member's results entry passes
both thresholds, contradicting "every member i has results[i].avgEngagement
< 0.4 or results[i].avgFocus < 0.35". -/
theorem c4_flagged_member_with_passing_entry :
    sSubDone.phase = Phase.results ∧
    rLow1 ∈ sSubDone.missedItems ∧
    sSubDone.itemResults.find? (fun r => r.itemIndex == rLow1.itemIndex) = some rHigh1 ∧
    failsThreshold rHigh1 = false := by
  rw [sSubDone_eq]
  exact ⟨rfl, List.mem_singleton.mpr rfl, rfl, failsThreshold_rHigh1⟩

/-- Counterexample to claim C5: in the state `sMidSampled` the session is at
position 1 with an open record for item 1 holding one reading; `goBack`
leaves `itemResults` exactly as it was — `[rLow0]`, with no entry for item 1
— so the current item's result is NOT recorded into results, contradicting
the claim's "closes tracking for the current item with its result recorded
into results". -/
theorem c5_back_result_not_recorded :
    sMidSampled.currentIndex = 1 ∧
    sMidSampled.tracker 1 = some { readings := [liveHigh], startTime := 1000 } ∧
    sBackStep.currentIndex = 0 ∧
    sBackStep.phase = Phase.reviewing ∧
    sBackStep.itemResults = sMidSampled.itemResults ∧
    sBackStep.itemResults.all (fun r => r.itemIndex != 1) = true :=
  ⟨rfl, rfl, rfl, rfl, rfl, rfl⟩

/-- Claim C5 as amended: the back transition, enabled only when position > 0
(at position 0 it does nothing), stops tracking for the current item and
DISCARDS its result — nothing is recorded into results —, decrements the
position by one, and re-opens a fresh tracking window for the item now at
the position; the session stays in REVIEWING. -/
theorem c5_back_discards_and_reopens (numItems : ℕ) (now : ℤ) (live : LiveMetrics)
    (s : SessionState) :
    (s.currentIndex = 0 → goBack numItems now live s = s) ∧
    (0 < s.currentIndex →
      (goBack numItems now live s).currentIndex = s.currentIndex - 1 ∧
      (goBack numItems now live s).phase = s.phase ∧
      (goBack numItems now live s).itemResults = s.itemResults ∧
      (goBack numItems now live s).missedItems = s.missedItems ∧
      ∀ idx2, (activeQueue numItems s)[s.currentIndex - 1]? = some idx2 →
        (goBack numItems now live s).tracker idx2 =
          some { readings := [], startTime := now }) := by
  constructor
  · intro h0
    simp [goBack, h0]
  · intro hpos
    have h0 : ¬s.currentIndex = 0 := Nat.pos_iff_ne_zero.mp hpos
    unfold goBack
    simp only [if_neg h0]
    cases hq : (activeQueue numItems s)[s.currentIndex]? with
    | none =>
      cases hq2 : (activeQueue numItems s)[s.currentIndex - 1]? with
      | none =>
        simp [hq, hq2]
      | some idx2 =>
        refine ⟨?_, ?_, ?_, ?_, ?_⟩ <;>
          simp [hq, hq2, startTrackingItem]
    | some idx =>
      cases hq2 : (activeQueue numItems s)[s.currentIndex - 1]? with
      | none =>
        simp [hq, hq2, stopTrackingItem_snd]
      | some idx2 =>
        refine ⟨?_, ?_, ?_, ?_, ?_⟩ <;>
          simp [hq, hq2, startTrackingItem, stopTrackingItem_snd]

/-- Witness for the amended C5 at the concrete mid-pass state: going back from
position 1 lands at position 0, keeps results untouched and opens a fresh
window for item 0. -/
theorem c5_back_discards_and_reopens_witness :
    (goBack 2 2000 liveHigh sMidSampled).currentIndex = sMidSampled.currentIndex - 1 ∧
    (goBack 2 2000 liveHigh sMidSampled).itemResults = sMidSampled.itemResults ∧
    (goBack 2 2000 liveHigh sMidSampled).tracker 0 =
      some { readings := [], startTime := 2000 } := by
  have h := (c5_back_discards_and_reopens 2 2000 liveHigh sMidSampled).2 (by decide)
  exact ⟨h.1, h.2.2.1, h.2.2.2.2 0 rfl⟩

end Vigil
